import Mathlib

/-!
# BrainBolt adaptive quiz — verification of the answer-submission engine

Shallow embedding of the BrainBolt backend (TypeScript) in Lean 4.
JavaScript numbers are modelled as exact rationals (`ℚ`); timestamps are
epoch milliseconds as `ℚ`; SQL tables are association lists; Redis is a
record of association lists.  Fallible operations return `Except`.

Sources embedded:
* `src/score.ts` (`calculateScore`)
* `src/adaptive.ts` (`computeNextDifficulty`, `clampDifficulty`, `clampConfidence`)
* `src/userState.ts` (`applyDecay`, pure core)
* `src/quiz.ts` (`submitAnswer`, with its inlined decay)
* `src/idempotency.ts` (`checkIdempotency`, `storeIdempotency`)
* `src/leaderboard.ts` (`upsertLeaderboardTx`, `getTop`, `updateLeaderboardCaches`)
* `src/db.ts` (`withTransaction`: a thrown error rolls the database back)
-/

namespace BrainBolt

/-- JavaScript `Math.trunc` on an exact rational: round toward zero. -/
def jsTrunc (q : ℚ) : ℚ :=
  if 0 ≤ q then (⌊q⌋ : ℚ) else (⌈q⌉ : ℚ)

/-- JavaScript `Math.round` on an exact rational: `⌊q + 1/2⌋`
(halves round toward +∞, as in JS). -/
def jsRound (q : ℚ) : ℤ :=
  ⌊q + 1/2⌋

/-! ## `src/score.ts` -/

def MAX_MULTIPLIER : ℚ := 2
def WRONG_PENALTY : ℚ := -5

/-- `calculateScore` from `src/score.ts`, verbatim over exact rationals:
`baseScore = difficulty * 10`, `multiplier = min(1 + streak * 0.1, MAX_MULTIPLIER)`;
wrong answers return the fixed penalty, correct answers return
`baseScore * multiplier` (the source applies no rounding). -/
def calculateScore (difficulty streak : ℚ) (correct : Bool) : ℚ :=
  let baseScore := difficulty * 10
  let multiplier := min (1 + streak * (1/10)) MAX_MULTIPLIER
  if !correct then WRONG_PENALTY else baseScore * multiplier

/-! ## `src/adaptive.ts` -/

def MIN_DIFFICULTY : ℚ := 1
def MAX_DIFFICULTY : ℚ := 10
def CONFIDENCE_UP_THRESHOLD : ℚ := 2
def CONFIDENCE_DOWN_THRESHOLD : ℚ := -2
def MIN_STREAK_FOR_INCREASE : ℚ := 2

/-- `clampDifficulty` from `src/adaptive.ts`
(the `Number.isNaN` guard has no counterpart over `ℚ`):
`min(MAX, max(MIN, Math.trunc(value)))`. -/
def clampDifficulty (value : ℚ) : ℚ :=
  min MAX_DIFFICULTY (max MIN_DIFFICULTY (jsTrunc value))

/-- `clampConfidence` from `src/adaptive.ts`:
`max(-CONFIDENCE_UP_THRESHOLD, min(CONFIDENCE_UP_THRESHOLD, value))`. -/
def clampConfidence (value : ℚ) : ℚ :=
  max (-CONFIDENCE_UP_THRESHOLD) (min CONFIDENCE_UP_THRESHOLD value)

structure NextDifficulty where
  nextDifficulty : ℚ
  nextConfidence : ℚ
deriving Repr, DecidableEq

/-- `computeNextDifficulty` from `src/adaptive.ts`, verbatim. -/
def computeNextDifficulty (currentDifficulty : ℚ) (correct : Bool)
    (confidence streak : ℚ) : NextDifficulty :=
  let nextConfidence := if correct then confidence + 1 else confidence - 1
  let nextDifficulty := currentDifficulty
  if CONFIDENCE_UP_THRESHOLD ≤ nextConfidence ∧ MIN_STREAK_FOR_INCREASE ≤ streak then
    { nextDifficulty := clampDifficulty (nextDifficulty + 1)
      nextConfidence := clampConfidence 0 }
  else if nextConfidence ≤ CONFIDENCE_DOWN_THRESHOLD then
    { nextDifficulty := clampDifficulty (nextDifficulty - 1)
      nextConfidence := clampConfidence 0 }
  else
    { nextDifficulty := clampDifficulty nextDifficulty
      nextConfidence := clampConfidence nextConfidence }

/-! ## Data model (`schema.sql`, `src/userState.ts`) -/

/-- One `user_state` row (`UserProgressionState`).  Timestamps are epoch
milliseconds as exact rationals. -/
structure UserState where
  userId : String
  currentDifficulty : ℚ
  streak : ℚ
  maxStreak : ℚ
  totalScore : ℚ
  stateVersion : ℚ
  confidence : ℚ
  lastAnswerAt : Option ℚ := none
  lastQuestionId : Option String := none
deriving Repr, DecidableEq

/-- A `questions` row (only the columns `submitAnswer` reads). -/
structure Question where
  id : String
  difficulty : ℚ
  correctAnswerHash : String
deriving Repr, DecidableEq

/-- An `answer_log` row (columns written by `submitAnswer`). -/
structure AnswerLogEntry where
  userId : String
  questionId : String
  difficulty : ℚ
  answer : String
  correct : Bool
  scoreDelta : ℚ
  streakAtAnswer : ℚ
  confidenceAfter : ℚ
  answeredAt : ℚ
deriving Repr, DecidableEq

/-- The durable PostgreSQL state: the four tables `submitAnswer` touches. -/
structure Db where
  userStates : List UserState
  questions : List Question
  answerLog : List AnswerLogEntry
  leaderboardScore : List (String × ℚ)
  leaderboardStreak : List (String × ℚ)
deriving Repr, DecidableEq

/-! ### Association-list helpers (Redis keys, SQL upserts) -/

def lookupAssoc {β : Type} (l : List (String × β)) (k : String) : Option β :=
  (l.find? (fun p => p.1 == k)).map (fun p => p.2)

/-- Set a key to a value: overwrite an existing binding, else append
(models both `redis.set` and SQL `INSERT ... ON CONFLICT DO UPDATE`). -/
def setAssoc {β : Type} (l : List (String × β)) (k : String) (v : β) :
    List (String × β) :=
  if l.any (fun p => p.1 == k) then
    l.map (fun p => if p.1 == k then (k, v) else p)
  else
    l ++ [(k, v)]

def delAssoc {β : Type} (l : List (String × β)) (k : String) : List (String × β) :=
  l.filter (fun p => p.1 != k)

/-! ## Decay (`src/quiz.ts` inline, and `src/userState.ts` `applyDecay`) -/

def INACTIVITY_DECAY_MS : ℚ := 5 * 60 * 1000
def STREAK_DECAY_MS : ℚ := 5 * 60 * 1000

/-- The decay trigger of `src/quiz.ts` `submitAnswer`:
`lastAnswerAt && (Date.now() - lastAnswerAt) > INACTIVITY_DECAY_MS`.
A parsed timestamp of exactly 0 is falsy in JS, hence the `t ≠ 0` guard.
Note: the source has NO `streak > 0` condition here. -/
def quizDecayCondition (now : ℚ) (row : UserState) : Prop :=
  match row.lastAnswerAt with
  | none => False
  | some t => t ≠ 0 ∧ INACTIVITY_DECAY_MS < now - t

instance (now : ℚ) (row : UserState) : Decidable (quizDecayCondition now row) := by
  unfold quizDecayCondition
  match row.lastAnswerAt with
  | none => exact inferInstanceAs (Decidable False)
  | some t => exact inferInstanceAs (Decidable (_ ∧ _))

/-- The in-memory decay mutation inlined in `src/quiz.ts` `submitAnswer`
(lines 100–104): halve the streak (floor), decrement confidence clamped
at -2, bump the version. -/
def decayState (row : UserState) : UserState :=
  { row with
    streak := (⌊row.streak / 2⌋ : ℚ)
    confidence := max (row.confidence - 1) (-2)
    stateVersion := row.stateVersion + 1 }

/-- The pure core of `applyDecay` from `src/userState.ts`: decay applies
only when `lastAnswerAt` parses, more than `STREAK_DECAY_MS` has elapsed,
AND `streak > 0`; otherwise the state is returned unchanged. -/
def applyDecayPure (now : ℚ) (state : UserState) : UserState :=
  match state.lastAnswerAt with
  | none => state
  | some last =>
    if STREAK_DECAY_MS < now - last ∧ 0 < state.streak then
      { state with
        streak := (⌊state.streak / 2⌋ : ℚ)
        confidence := max (state.confidence - 1) (-2)
        stateVersion := state.stateVersion + 1 }
    else
      state

/-! ## Redis state and leaderboard structures -/

/-- A leaderboard projection entry (`src/leaderboard.ts`). -/
structure LeaderboardEntry where
  userId : String
  totalScore : ℚ
  maxStreak : ℚ
  rank : ℚ
deriving Repr, DecidableEq

/-- A leaderboard dimension: by cumulative score or by maximum streak. -/
inductive Dimension where
  | score
  | streak
deriving Repr, DecidableEq

def Dimension.key : Dimension → String
  | .score => "score"
  | .streak => "streak"

/-- `cacheKeyForTop` from `src/leaderboard.ts` (`limit` defaults to 10). -/
def cacheKeyForTop (kind : Dimension) (limit : ℤ) : String :=
  "leaderboard:cache:" ++ kind.key ++ ":" ++ toString limit

/-! ## `src/quiz.ts` `submitAnswer` -/

def RATE_LIMIT_PER_MINUTE : ℕ := 20

inductive SubmitError where
  | validationError
  | rateLimited
  | stateNotFound
  | questionNotFound
  | versionConflict
deriving Repr, DecidableEq

structure SubmitAnswerBody where
  userId : String
  questionId : String
  answer : String
  stateVersion : ℚ
  answerIdempotencyKey : Option String := none
deriving Repr, DecidableEq

structure SubmitAnswerResponse where
  correct : Bool
  newDifficulty : ℚ
  newConfidence : ℚ
  newStreak : ℚ
  scoreDelta : ℚ
  totalScore : ℚ
  stateVersion : ℚ
  leaderboardRankScore : Option ℚ
  leaderboardRankStreak : Option ℚ
  maxStreak : Option ℚ := none
  answeredAt : Option ℚ := none
deriving Repr, DecidableEq

/-- The Redis keyspace, split by key family.  `topCache` values carry the
`EX` lifetime (seconds) they were stored with; `metricsCache` records
which metrics keys are present.  `idempotency` maps `idemp:`-prefixed
keys to the stored response payload (`JSON.stringify`/`JSON.parse` is the
identity round-trip on the modelled value). -/
structure RedisState where
  rateCounters : List (String × ℕ) := []
  idempotency : List (String × SubmitAnswerResponse) := []
  zsetScore : List (String × ℚ) := []
  zsetStreak : List (String × ℚ) := []
  topCache : List (String × (List LeaderboardEntry × ℚ)) := []
  userStateCache : List (String × UserState) := []
  metricsCache : List String := []
deriving Repr, DecidableEq

/-- The core state mutation of the transaction (`src/quiz.ts` lines
123–161), given the (possibly decayed) current state: new streak,
max-streak high-water mark, score delta via `calculateScore`, total score
clamped at 0, adaptive step via `computeNextDifficulty`, version bump,
and the timestamp/last-question bookkeeping of the `UPDATE`.  Returns the
new row and the score delta. -/
def applySubmissionState (state : UserState) (questionDifficulty : ℚ)
    (correct : Bool) (questionId : String) (now : ℚ) : UserState × ℚ :=
  let newStreak := if correct then state.streak + 1 else 0
  let newMaxStreak := max state.maxStreak newStreak
  let scoreDelta := calculateScore questionDifficulty newStreak correct
  let newTotalScore := max 0 (state.totalScore + scoreDelta)
  let nd := computeNextDifficulty state.currentDifficulty correct state.confidence newStreak
  ({ state with
      streak := newStreak
      maxStreak := newMaxStreak
      totalScore := newTotalScore
      currentDifficulty := nd.nextDifficulty
      confidence := nd.nextConfidence
      stateVersion := state.stateVersion + 1
      lastQuestionId := some questionId
      lastAnswerAt := some now },
   scoreDelta)

/-- `COUNT(*) WHERE value > v` over a leaderboard table. -/
def countGreater (l : List (String × ℚ)) (v : ℚ) : ℕ :=
  (l.filter (fun p => decide (v < p.2))).length

/-- `upsertLeaderboardTx` from `src/leaderboard.ts`: upsert both durable
rows, then compute each rank as the count of strictly greater rows plus
one (against the already-updated tables). -/
def upsertLeaderboardTx (db : Db) (userId : String) (totalScore maxStreak : ℚ) :
    Db × ℕ × ℕ :=
  let ls := setAssoc db.leaderboardScore userId totalScore
  let lst := setAssoc db.leaderboardStreak userId maxStreak
  ({ db with leaderboardScore := ls, leaderboardStreak := lst },
   countGreater ls totalScore + 1,
   countGreater lst maxStreak + 1)

/-- The body of the `withTransaction` callback in `submitAnswer`
(`src/quiz.ts` lines 70–210).  An `.error` models a thrown exception,
after which `withTransaction` issues `ROLLBACK`: the caller keeps the
original `Db`.  Note the decay (lines 100–104) mutates only the
in-memory `currentState` before the version check. -/
def submitTransaction (hash : String → String) (now : ℚ) (db : Db)
    (body : SubmitAnswerBody) : Except SubmitError (Db × SubmitAnswerResponse) :=
  match db.userStates.find? (fun r => r.userId == body.userId) with
  | none => .error .stateNotFound
  | some row =>
    let currentState := if quizDecayCondition now row then decayState row else row
    if body.stateVersion ≠ currentState.stateVersion then
      .error .versionConflict
    else
      match db.questions.find? (fun q => q.id == body.questionId) with
      | none => .error .questionNotFound
      | some question =>
        let correct := hash body.answer == question.correctAnswerHash
        let stepped := applySubmissionState currentState question.difficulty correct
          body.questionId now
        let newState := stepped.1
        let scoreDelta := stepped.2
        let db1 := { db with
          userStates := db.userStates.map
            (fun r => if r.userId == body.userId then newState else r)
          answerLog := db.answerLog ++ [{
            userId := body.userId
            questionId := body.questionId
            difficulty := question.difficulty
            answer := body.answer
            correct := correct
            scoreDelta := scoreDelta
            streakAtAnswer := newState.streak
            confidenceAfter := newState.confidence
            answeredAt := now }] }
        let upserted := upsertLeaderboardTx db1 body.userId newState.totalScore newState.maxStreak
        .ok (upserted.1, {
          correct := correct
          newDifficulty := newState.currentDifficulty
          newConfidence := newState.confidence
          newStreak := newState.streak
          scoreDelta := scoreDelta
          totalScore := newState.totalScore
          stateVersion := newState.stateVersion
          leaderboardRankScore := some (upserted.2.1 : ℚ)
          leaderboardRankStreak := some (upserted.2.2 : ℚ)
          maxStreak := some newState.maxStreak
          answeredAt := some now })

/-- `updateLeaderboardCaches` from `src/leaderboard.ts`: `zAdd` the user
into both sorted sets, then delete the two default-limit top caches. -/
def updateLeaderboardCaches (redis : RedisState) (userId : String)
    (totalScore maxStreak : ℚ) : RedisState :=
  { redis with
    zsetScore := setAssoc redis.zsetScore userId totalScore
    zsetStreak := setAssoc redis.zsetStreak userId maxStreak
    topCache := delAssoc (delAssoc redis.topCache (cacheKeyForTop .score 10))
      (cacheKeyForTop .streak 10) }

instance {ε α : Type} [DecidableEq ε] [DecidableEq α] :
    DecidableEq (Except ε α) := fun
  | .error a, .error b =>
    match decEq a b with
    | isTrue h => isTrue (by rw [h])
    | isFalse h => isFalse (fun hh => h (Except.error.inj hh))
  | .error _, .ok _ => isFalse (fun hh => Except.noConfusion hh)
  | .ok _, .error _ => isFalse (fun hh => Except.noConfusion hh)
  | .ok a, .ok b =>
    match decEq a b with
    | isTrue h => isTrue (by rw [h])
    | isFalse h => isFalse (fun hh => h (Except.ok.inj hh))

structure SubmitOutcome where
  db : Db
  redis : RedisState
  result : Except SubmitError SubmitAnswerResponse
deriving Repr, DecidableEq

/-- The missing-field check at the top of `submitAnswer`
(`!userId || !questionId || !answer`; empty strings are falsy). -/
def missingFields (body : SubmitAnswerBody) : Prop :=
  body.userId = "" ∨ body.questionId = "" ∨ body.answer = ""

instance (body : SubmitAnswerBody) : Decidable (missingFields body) := by
  unfold missingFields
  exact inferInstanceAs (Decidable (_ ∨ _ ∨ _))

/-- `redis.incr` on the user's fixed-window rate key: the new counter
value together with the updated Redis state.  (The window-aligning
`expire` has no counterpart because key expiry is not time-stepped.) -/
def bumpRateCounter (redis : RedisState) (userId : String) : ℕ × RedisState :=
  let attempts := (lookupAssoc redis.rateCounters ("rate:" ++ userId)).getD 0 + 1
  (attempts,
   { redis with rateCounters := setAssoc redis.rateCounters ("rate:" ++ userId) attempts })

/-- `checkIdempotency` as used by `submitAnswer`: an empty token is falsy
and skipped; otherwise look up the `idemp:`-prefixed key. -/
def replayLookup (redis : RedisState) (body : SubmitAnswerBody) :
    Option SubmitAnswerResponse :=
  match body.answerIdempotencyKey with
  | some k => if k = "" then none else lookupAssoc redis.idempotency ("idemp:" ++ k)
  | none => none

/-- The post-commit section of `submitAnswer` (`src/quiz.ts` lines
212–229): refresh the leaderboard caches and the user-state cache,
delete the user's metrics cache, and store the idempotency record. -/
def postCommitRedis (redis : RedisState) (body : SubmitAnswerBody)
    (resp : SubmitAnswerResponse) : RedisState :=
  let cacheState : UserState := {
    userId := body.userId
    currentDifficulty := resp.newDifficulty
    streak := resp.newStreak
    maxStreak := resp.maxStreak.getD resp.newStreak
    totalScore := resp.totalScore
    stateVersion := resp.stateVersion
    confidence := resp.newConfidence
    lastAnswerAt := resp.answeredAt
    lastQuestionId := none }
  let redis2 := updateLeaderboardCaches redis body.userId resp.totalScore
    (resp.maxStreak.getD resp.newStreak)
  let redis3 := { redis2 with
    userStateCache := setAssoc redis2.userStateCache
      ("user_state:" ++ body.userId) cacheState
    metricsCache := redis2.metricsCache.filter
      (fun k => k != "metrics:" ++ body.userId) }
  match body.answerIdempotencyKey with
  | some k =>
    if k = "" then redis3
    else { redis3 with idempotency := setAssoc redis3.idempotency ("idemp:" ++ k) resp }
  | none => redis3

/-- `submitAnswer` from `src/quiz.ts`, end to end.  In order:
input validation (JS falsiness: empty strings are rejected;
`Number.isInteger(stateVersion)` is the denominator-one test), the
per-user fixed-window rate counter (ceiling 20), the idempotency lookup,
the transaction (rolled back wholesale on error), and the post-commit
cache refreshes plus idempotency store. -/
def submitAnswer (hash : String → String) (now : ℚ) (db : Db)
    (redis : RedisState) (body : SubmitAnswerBody) : SubmitOutcome :=
  if missingFields body then
    ⟨db, redis, .error .validationError⟩
  else if body.stateVersion.den ≠ 1 then
    ⟨db, redis, .error .validationError⟩
  else
    let bumped := bumpRateCounter redis body.userId
    if RATE_LIMIT_PER_MINUTE < bumped.1 then
      ⟨db, bumped.2, .error .rateLimited⟩
    else
      match replayLookup bumped.2 body with
      | some resp => ⟨db, bumped.2, .ok resp⟩
      | none =>
        match submitTransaction hash now db body with
        | .error e => ⟨db, bumped.2, .error e⟩
        | .ok committed =>
          ⟨committed.1, postCommitRedis bumped.2 body committed.2, .ok committed.2⟩

/-! ## `src/leaderboard.ts` `getTop` -/

def TOP_CACHE_TTL_SECONDS : ℚ := 30

/-- Insert into a list kept in strictly-descending-score order (stable on
ties).  Models the ordering `zRange ... REV` returns; Redis breaks score
ties by member, which no claim depends on. -/
def insertByScoreDesc (a : String × ℚ) : List (String × ℚ) → List (String × ℚ)
  | [] => [a]
  | b :: rest => if b.2 < a.2 then a :: b :: rest else b :: insertByScoreDesc a rest

/-- The member/score pairs of a sorted set, highest score first. -/
def zRevSorted : List (String × ℚ) → List (String × ℚ)
  | [] => []
  | a :: rest => insertByScoreDesc a (zRevSorted rest)

/-- The private `getTop` of `src/leaderboard.ts`: serve the cached
projection if present; otherwise read the top `safeLimit` members of the
**Redis sorted set** for the dimension, fill in the cross-dimension value
via `zScore` (`?? 0`), assign ranks by position, and store the result in
the top cache with `EX = TOP_CACHE_TTL_SECONDS`.  Returns the updated
Redis state and the entries. -/
def getTop (redis : RedisState) (kind : Dimension) (limit : ℚ) :
    RedisState × List LeaderboardEntry :=
  let safeLimit : ℤ := max 1 ⌊limit⌋
  let cacheKey := cacheKeyForTop kind safeLimit
  match lookupAssoc redis.topCache cacheKey with
  | some cached => (redis, cached.1)
  | none =>
    let zset := match kind with
      | .score => redis.zsetScore
      | .streak => redis.zsetStreak
    let raw := (zRevSorted zset).take safeLimit.toNat
    let entries := raw.enum.map (fun ie =>
      let score := match kind with
        | .score => some ie.2.2
        | .streak => lookupAssoc redis.zsetScore ie.2.1
      let streak := match kind with
        | .streak => some ie.2.2
        | .score => lookupAssoc redis.zsetStreak ie.2.1
      { userId := ie.2.1
        totalScore := score.getD 0
        maxStreak := streak.getD 0
        rank := (ie.1 : ℚ) + 1 : LeaderboardEntry })
    ({ redis with
        topCache := setAssoc redis.topCache cacheKey (entries, TOP_CACHE_TTL_SECONDS) },
     entries)

/-- The top-`n` projection computed from the Redis sorted-set tier,
written independently of `getTop` for comparison: take the `n`
highest-scored members of the dimension's sorted set, pair each with its
cross-dimension `zScore` (0 when absent), and rank by position. -/
def topProjectionFromZsets (redis : RedisState) (kind : Dimension) (n : ℕ) :
    List LeaderboardEntry :=
  let zset := match kind with
    | .score => redis.zsetScore
    | .streak => redis.zsetStreak
  ((zRevSorted zset).take n).enum.map (fun ie =>
    match kind with
    | .score =>
      { userId := ie.2.1
        totalScore := ie.2.2
        maxStreak := (lookupAssoc redis.zsetStreak ie.2.1).getD 0
        rank := (ie.1 : ℚ) + 1 }
    | .streak =>
      { userId := ie.2.1
        totalScore := (lookupAssoc redis.zsetScore ie.2.1).getD 0
        maxStreak := ie.2.2
        rank := (ie.1 : ℚ) + 1 })

/-- The recomputation C9 describes, following the spec's words: the top
list rebuilt from the **durable** leaderboard rows (`leaderboard_score` /
`leaderboard_streak` tables), highest value first, ranked by position. -/
def specTopFromDurableRows (db : Db) (kind : Dimension) (n : ℕ) :
    List LeaderboardEntry :=
  let rows := match kind with
    | .score => db.leaderboardScore
    | .streak => db.leaderboardStreak
  ((zRevSorted rows).take n).enum.map (fun ie =>
    match kind with
    | .score =>
      { userId := ie.2.1
        totalScore := ie.2.2
        maxStreak := (lookupAssoc db.leaderboardStreak ie.2.1).getD 0
        rank := (ie.1 : ℚ) + 1 }
    | .streak =>
      { userId := ie.2.1
        totalScore := (lookupAssoc db.leaderboardScore ie.2.1).getD 0
        maxStreak := ie.2.2
        rank := (ie.1 : ℚ) + 1 })

/-! ## Reachable progression states (for the global invariants) -/

/-- The onboarding defaults of `user_state` (`schema.sql` /
`DEFAULT_STATE` in `src/userState.ts`): difficulty 1, streak 0, score 0,
confidence 0, version 1. -/
def initialUserState (uid : String) : UserState :=
  { userId := uid
    currentDifficulty := 1
    streak := 0
    maxStreak := 0
    totalScore := 0
    stateVersion := 1
    confidence := 0 }

/-- User progression states reachable from the onboarding defaults by any
sequence of committed submissions (`applySubmissionState`, for any
question difficulty and correctness) and decays (either the inline decay
of `submitAnswer` or the `applyDecay` of the read path). -/
inductive Reachable : UserState → Prop
  | init (uid : String) : Reachable (initialUserState uid)
  | submit {s : UserState} (questionDifficulty : ℚ) (correct : Bool)
      (questionId : String) (now : ℚ) :
      Reachable s →
      Reachable (applySubmissionState s questionDifficulty correct questionId now).1
  | decaySubmit {s : UserState} : Reachable s → Reachable (decayState s)
  | decayRead {s : UserState} (now : ℚ) :
      Reachable s → Reachable (applyDecayPure now s)

/-! ## Claim-side definitions (from the spec's words, for comparison) -/

/-- The adaptive-difficulty transition exactly as claim C4 states it:
`confidence' = confidence ± 1`; step up when `confidence' ≥ 2` and the
post-answer streak is `≥ 2`, resetting confidence to 0; step down when
`confidence' ≤ -2`, resetting confidence to 0; otherwise carry; clamp
difficulty to [1,10] and confidence to [-2,2]. -/
def computeNextDifficultyClaim (currentDifficulty : ℚ) (correct : Bool)
    (confidence streak : ℚ) : NextDifficulty :=
  let clampD := fun d : ℚ => min 10 (max 1 d)
  let clampC := fun c : ℚ => max (-2) (min 2 c)
  let confNew := if correct then confidence + 1 else confidence - 1
  if 2 ≤ confNew ∧ 2 ≤ streak then
    { nextDifficulty := clampD (currentDifficulty + 1), nextConfidence := clampC 0 }
  else if confNew ≤ -2 then
    { nextDifficulty := clampD (currentDifficulty - 1), nextConfidence := clampC 0 }
  else
    { nextDifficulty := clampD currentDifficulty, nextConfidence := clampC confNew }

/-! ## Concrete fixtures for witnesses and counterexamples

`sha256` digests are modelled abstractly: the whole pipeline is
parametric in the hash function, and concrete scenarios instantiate it
with the identity. -/

def hashIdentity : String → String := fun s => s

/-- A user row that has been inactive since timestamp 1000 with a live
streak: at `now = 400000` the inline decay of `submitAnswer` triggers. -/
def staleRow : UserState :=
  { userId := "u", currentDifficulty := 3, streak := 4, maxStreak := 4,
    totalScore := 50, stateVersion := 5, confidence := 0,
    lastAnswerAt := some 1000 }

/-- A user row with no `lastAnswerAt` (never decays). -/
def freshRow : UserState :=
  { userId := "u", currentDifficulty := 3, streak := 4, maxStreak := 4,
    totalScore := 50, stateVersion := 5, confidence := 0 }

/-- A user row with `streak = 0` that has been inactive since timestamp
1000: per the spec's decay policy nothing should change, but the inline
decay of `submitAnswer` still fires. -/
def zeroStreakStaleRow : UserState :=
  { userId := "u", currentDifficulty := 3, streak := 0, maxStreak := 4,
    totalScore := 50, stateVersion := 1, confidence := 0,
    lastAnswerAt := some 1000 }

def fixtureQuestion : Question :=
  { id := "q1", difficulty := 3, correctAnswerHash := "42" }

def staleDb : Db :=
  { userStates := [staleRow], questions := [fixtureQuestion],
    answerLog := [], leaderboardScore := [], leaderboardStreak := [] }

def freshDb : Db :=
  { userStates := [freshRow], questions := [fixtureQuestion],
    answerLog := [], leaderboardScore := [], leaderboardStreak := [] }

def zeroStreakDb : Db :=
  { userStates := [zeroStreakStaleRow], questions := [fixtureQuestion],
    answerLog := [], leaderboardScore := [], leaderboardStreak := [] }

/-- A stored idempotency response (the payload of the first submission). -/
def storedResponse : SubmitAnswerResponse :=
  { correct := true, newDifficulty := 3, newConfidence := 1, newStreak := 5,
    scoreDelta := 45, totalScore := 95, stateVersion := 6,
    leaderboardRankScore := some 1, leaderboardRankStreak := some 1,
    maxStreak := some 5, answeredAt := some 1000 }

/-- Redis with a stored response under token `tok` and a fresh rate window. -/
def redisWithToken : RedisState :=
  { idempotency := [("idemp:tok", storedResponse)] }

/-- Redis with a stored response under token `tok` and the user's rate
counter already at the 20/minute ceiling. -/
def redisAtRateCeiling : RedisState :=
  { rateCounters := [("rate:u", 20)],
    idempotency := [("idemp:tok", storedResponse)] }

/-- Redis whose leaderboard sorted-set tier knows `alice` while the
durable leaderboard tables are empty (`emptyLeaderboardDb`). -/
def redisZsetOnly : RedisState :=
  { zsetScore := [("alice", 100)] }

def emptyLeaderboardDb : Db :=
  { userStates := [], questions := [], answerLog := [],
    leaderboardScore := [], leaderboardStreak := [] }

/-- A submission echoing state version 5 (the pre-decay version of
`staleRow` / the current version of `freshRow`). -/
def staleBody : SubmitAnswerBody :=
  { userId := "u", questionId := "q1", answer := "42", stateVersion := 5 }

/-- A submission echoing state version 4: stale against version 5. -/
def conflictBody : SubmitAnswerBody :=
  { userId := "u", questionId := "q1", answer := "42", stateVersion := 4 }

/-- A submission echoing version 1, the stored version of
`zeroStreakStaleRow`. -/
def zeroStreakBody : SubmitAnswerBody :=
  { userId := "u", questionId := "q1", answer := "42", stateVersion := 1 }

/-- A retried submission carrying token `tok` with a different
`answerText` than the first attempt. -/
def replayBody : SubmitAnswerBody :=
  { userId := "u", questionId := "q1", answer := "43", stateVersion := 6,
    answerIdempotencyKey := some "tok" }

/-- A retried submission carrying token `tok` whose `answerText` is the
empty string (falsy in JS). -/
def emptyAnswerReplayBody : SubmitAnswerBody :=
  { userId := "u", questionId := "q1", answer := "", stateVersion := 6,
    answerIdempotencyKey := some "tok" }

/-! ## Basic lemmas -/

theorem jsTrunc_intCast (n : ℤ) : jsTrunc ((n : ℚ)) = (n : ℚ) := by
  unfold jsTrunc
  split
  · rw [Int.floor_intCast]
  · rw [Int.ceil_intCast]

theorem jsRound_intCast (n : ℤ) : jsRound ((n : ℚ)) = n := by
  unfold jsRound
  rw [Int.floor_int_add]
  norm_num

theorem clampDifficulty_bounds (q : ℚ) :
    1 ≤ clampDifficulty q ∧ clampDifficulty q ≤ 10 := by
  unfold clampDifficulty MIN_DIFFICULTY MAX_DIFFICULTY
  constructor
  · exact le_min (by norm_num) (le_max_left 1 _)
  · exact min_le_left _ _

theorem clampConfidence_bounds (q : ℚ) :
    -2 ≤ clampConfidence q ∧ clampConfidence q ≤ 2 := by
  unfold clampConfidence CONFIDENCE_UP_THRESHOLD
  constructor
  · exact le_max_left _ _
  · exact max_le (by norm_num) (min_le_left _ _)

theorem computeNextDifficulty_shape (d : ℚ) (c : Bool) (conf streak : ℚ) :
    ∃ x y, computeNextDifficulty d c conf streak =
      { nextDifficulty := clampDifficulty x, nextConfidence := clampConfidence y } := by
  simp only [computeNextDifficulty]
  repeat' split
  all_goals exact ⟨_, _, rfl⟩

theorem computeNextDifficulty_bounds (d : ℚ) (c : Bool) (conf streak : ℚ) :
    (1 ≤ (computeNextDifficulty d c conf streak).nextDifficulty ∧
      (computeNextDifficulty d c conf streak).nextDifficulty ≤ 10) ∧
    (-2 ≤ (computeNextDifficulty d c conf streak).nextConfidence ∧
      (computeNextDifficulty d c conf streak).nextConfidence ≤ 2) := by
  obtain ⟨x, y, hxy⟩ := computeNextDifficulty_shape d c conf streak
  rw [hxy]
  exact ⟨clampDifficulty_bounds x, clampConfidence_bounds y⟩

/-! ## The claim-side adaptive transition (C4) -/

theorem clampDifficulty_intCast (n : ℤ) :
    clampDifficulty ((n : ℚ)) = min 10 (max 1 ((n : ℚ))) := by
  unfold clampDifficulty MIN_DIFFICULTY MAX_DIFFICULTY
  rw [jsTrunc_intCast]

/-- C4: on every integer input the adaptive machine of `src/adaptive.ts`
computes exactly the transition the claim describes:
increment/decrement confidence, promote on `confidence' ≥ 2` with
post-answer streak `≥ 2` (confidence resets to 0), demote on
`confidence' ≤ -2` (confidence resets to 0), otherwise carry the updated
confidence; final difficulty clamped to [1,10], confidence to [-2,2]. -/
theorem computeNextDifficulty_matches_claim (d conf streak : ℤ) (correct : Bool) :
    computeNextDifficulty (d : ℚ) correct (conf : ℚ) (streak : ℚ) =
      computeNextDifficultyClaim (d : ℚ) correct (conf : ℚ) (streak : ℚ) := by
  unfold computeNextDifficulty computeNextDifficultyClaim
  unfold CONFIDENCE_UP_THRESHOLD CONFIDENCE_DOWN_THRESHOLD MIN_STREAK_FOR_INCREASE
  have hclampC : ∀ q : ℚ, clampConfidence q = max (-2) (min 2 q) := by
    intro q
    unfold clampConfidence CONFIDENCE_UP_THRESHOLD
    rfl
  by_cases h1 : 2 ≤ (if correct then (conf : ℚ) + 1 else (conf : ℚ) - 1) ∧ 2 ≤ (streak : ℚ)
  · rw [if_pos h1, if_pos h1]
    have : ((d : ℚ) + 1) = (((d + 1 : ℤ)) : ℚ) := by push_cast; ring
    rw [this, clampDifficulty_intCast, hclampC]
  · rw [if_neg h1, if_neg h1]
    by_cases h2 : (if correct then (conf : ℚ) + 1 else (conf : ℚ) - 1) ≤ -2
    · rw [if_pos h2, if_pos h2]
      have : ((d : ℚ) - 1) = (((d - 1 : ℤ)) : ℚ) := by push_cast; ring
      rw [this, clampDifficulty_intCast, hclampC]
    · rw [if_neg h2, if_neg h2, clampDifficulty_intCast, hclampC]

/-! ## C3: the scoring function -/

/-- C3: over exact arithmetic, for every difficulty `d ∈ [1,10]` and
streak `s ≥ 0`, a correct answer scores `round(d·10·min(1 + 0.1·s, 2))`
(the product is an exact integer, so the rounding the claim mentions is
the identity), and a wrong answer scores exactly -5 regardless of
difficulty or streak. -/
theorem calculateScore_spec (d s : ℕ) (_hd1 : 1 ≤ d) (_hd10 : d ≤ 10) :
    calculateScore (d : ℚ) (s : ℚ) true =
      ((jsRound ((d : ℚ) * 10 * min (1 + (1/10) * (s : ℚ)) 2) : ℤ) : ℚ) ∧
    calculateScore (d : ℚ) (s : ℚ) false = -5 := by
  constructor
  · unfold calculateScore MAX_MULTIPLIER
    simp only [Bool.not_true, if_false, Bool.false_eq_true]
    have hcomm : (1 : ℚ) + (s : ℚ) * (1/10) = 1 + (1/10) * (s : ℚ) := by ring
    rw [hcomm]
    rcases le_or_lt (s : ℚ) 10 with hs | hs
    · have hmin : min (1 + (1/10) * (s : ℚ)) 2 = 1 + (1/10) * (s : ℚ) :=
        min_eq_left (by linarith)
      rw [hmin]
      have hval : (d : ℚ) * 10 * (1 + (1/10) * (s : ℚ)) = (((10 * d + d * s : ℕ) : ℤ) : ℚ) := by
        push_cast
        ring
      rw [hval, jsRound_intCast]
    · have hmin : min (1 + (1/10) * (s : ℚ)) 2 = 2 :=
        min_eq_right (by linarith)
      rw [hmin]
      have hval : (d : ℚ) * 10 * 2 = (((20 * d : ℕ) : ℤ) : ℚ) := by
        push_cast
        ring
      rw [hval, jsRound_intCast]
  · unfold calculateScore WRONG_PENALTY
    simp

/-- Witness for C3 at `d = 3`, `s = 4`: the score for a correct answer is
`round(3·10·1.4) = 42` and a wrong answer scores -5. -/
theorem calculateScore_spec_witness :
    calculateScore ((3 : ℕ) : ℚ) ((4 : ℕ) : ℚ) true =
      ((jsRound (((3 : ℕ) : ℚ) * 10 * min (1 + (1/10) * ((4 : ℕ) : ℚ)) 2) : ℤ) : ℚ) ∧
    calculateScore ((3 : ℕ) : ℚ) ((4 : ℕ) : ℚ) false = -5 :=
  calculateScore_spec 3 4 (by norm_num) (by norm_num)

/-! ## Pipeline lemmas for `submitAnswer` -/

theorem submitTransaction_versionConflict (hash : String → String) (now : ℚ)
    (db : Db) (body : SubmitAnswerBody) (row : UserState)
    (hfind : db.userStates.find? (fun r => r.userId == body.userId) = some row)
    (hver : body.stateVersion ≠
      (if quizDecayCondition now row then decayState row else row).stateVersion) :
    submitTransaction hash now db body = .error .versionConflict := by
  unfold submitTransaction
  rw [hfind]
  simp only [if_pos hver]

theorem submitAnswer_txError (hash : String → String) (now : ℚ) (db : Db)
    (redis : RedisState) (body : SubmitAnswerBody) (e : SubmitError)
    (hmf : ¬ missingFields body)
    (hden : body.stateVersion.den = 1)
    (hrate : ¬ RATE_LIMIT_PER_MINUTE < (bumpRateCounter redis body.userId).1)
    (hreplay : replayLookup (bumpRateCounter redis body.userId).2 body = none)
    (htx : submitTransaction hash now db body = .error e) :
    submitAnswer hash now db redis body =
      ⟨db, (bumpRateCounter redis body.userId).2, .error e⟩ := by
  unfold submitAnswer
  rw [if_neg hmf, if_neg (by simp [hden]), if_neg hrate, hreplay, htx]

theorem submitAnswer_replayHit (hash : String → String) (now : ℚ) (db : Db)
    (redis : RedisState) (body : SubmitAnswerBody) (resp : SubmitAnswerResponse)
    (hmf : ¬ missingFields body)
    (hden : body.stateVersion.den = 1)
    (hrate : ¬ RATE_LIMIT_PER_MINUTE < (bumpRateCounter redis body.userId).1)
    (hreplay : replayLookup (bumpRateCounter redis body.userId).2 body = some resp) :
    submitAnswer hash now db redis body =
      ⟨db, (bumpRateCounter redis body.userId).2, .ok resp⟩ := by
  unfold submitAnswer
  rw [if_neg hmf, if_neg (by simp [hden]), if_neg hrate, hreplay]

theorem submitAnswer_txOk (hash : String → String) (now : ℚ) (db : Db)
    (redis : RedisState) (body : SubmitAnswerBody)
    (pr : Db × SubmitAnswerResponse)
    (hmf : ¬ missingFields body)
    (hden : body.stateVersion.den = 1)
    (hrate : ¬ RATE_LIMIT_PER_MINUTE < (bumpRateCounter redis body.userId).1)
    (hreplay : replayLookup (bumpRateCounter redis body.userId).2 body = none)
    (htx : submitTransaction hash now db body = .ok pr) :
    submitAnswer hash now db redis body =
      ⟨pr.1, postCommitRedis (bumpRateCounter redis body.userId).2 body pr.2, .ok pr.2⟩ := by
  unfold submitAnswer
  rw [if_neg hmf, if_neg (by simp [hden]), if_neg hrate, hreplay, htx]

theorem submitTransaction_ok (hash : String → String) (now : ℚ) (db : Db)
    (body : SubmitAnswerBody) (row : UserState) (question : Question)
    (hfind : db.userStates.find? (fun r => r.userId == body.userId) = some row)
    (hver : body.stateVersion =
      (if quizDecayCondition now row then decayState row else row).stateVersion)
    (hq : db.questions.find? (fun q => q.id == body.questionId) = some question) :
    submitTransaction hash now db body =
      (let currentState := if quizDecayCondition now row then decayState row else row
       let correct := hash body.answer == question.correctAnswerHash
       let stepped := applySubmissionState currentState question.difficulty correct
         body.questionId now
       let db1 : Db := { db with
         userStates := db.userStates.map
           (fun r => if r.userId == body.userId then stepped.1 else r)
         answerLog := db.answerLog ++ [{
           userId := body.userId
           questionId := body.questionId
           difficulty := question.difficulty
           answer := body.answer
           correct := correct
           scoreDelta := stepped.2
           streakAtAnswer := stepped.1.streak
           confidenceAfter := stepped.1.confidence
           answeredAt := now }] }
       let upserted := upsertLeaderboardTx db1 body.userId stepped.1.totalScore stepped.1.maxStreak
       .ok (upserted.1, {
         correct := correct
         newDifficulty := stepped.1.currentDifficulty
         newConfidence := stepped.1.confidence
         newStreak := stepped.1.streak
         scoreDelta := stepped.2
         totalScore := stepped.1.totalScore
         stateVersion := stepped.1.stateVersion
         leaderboardRankScore := some (upserted.2.1 : ℚ)
         leaderboardRankStreak := some (upserted.2.2 : ℚ)
         maxStreak := some stepped.1.maxStreak
         answeredAt := some now })) := by
  unfold submitTransaction
  rw [hfind]
  simp only [if_neg (not_not_intro hver), hq]

/-- Shared helper: any version mismatch against the (possibly
decay-bumped) current version makes `submitAnswer` fail with the
version-conflict error and leave the database untouched. -/
theorem versionConflict_outcome (hash : String → String) (now : ℚ) (db : Db)
    (redis : RedisState) (body : SubmitAnswerBody) (row : UserState)
    (hmf : ¬ missingFields body)
    (hden : body.stateVersion.den = 1)
    (hrate : ¬ RATE_LIMIT_PER_MINUTE < (bumpRateCounter redis body.userId).1)
    (hreplay : replayLookup (bumpRateCounter redis body.userId).2 body = none)
    (hfind : db.userStates.find? (fun r => r.userId == body.userId) = some row)
    (hver : body.stateVersion ≠
      (if quizDecayCondition now row then decayState row else row).stateVersion) :
    (submitAnswer hash now db redis body).result = .error .versionConflict ∧
    (submitAnswer hash now db redis body).db = db := by
  rw [submitAnswer_txError hash now db redis body .versionConflict hmf hden hrate hreplay
    (submitTransaction_versionConflict hash now db body row hfind hver)]
  exact ⟨rfl, rfl⟩

/-! ## C8: invariants of every reachable progression state -/

/-- C8: every user state reachable from the onboarding defaults by any
sequence of submissions and decays has `currentDifficulty ∈ [1,10]`,
`confidence ∈ [-2,2]`, and `totalScore ≥ 0`. -/
theorem reachable_invariants (s : UserState) (h : Reachable s) :
    1 ≤ s.currentDifficulty ∧ s.currentDifficulty ≤ 10 ∧
    -2 ≤ s.confidence ∧ s.confidence ≤ 2 ∧ 0 ≤ s.totalScore := by
  induction h with
  | init uid =>
    norm_num [initialUserState]
  | submit qd c qid t _ ih =>
    refine ⟨?_, ?_, ?_, ?_, ?_⟩
    · exact (computeNextDifficulty_bounds _ _ _ _).1.1
    · exact (computeNextDifficulty_bounds _ _ _ _).1.2
    · exact (computeNextDifficulty_bounds _ _ _ _).2.1
    · exact (computeNextDifficulty_bounds _ _ _ _).2.2
    · exact le_max_left 0 _
  | decaySubmit _ ih =>
    obtain ⟨h1, h2, h3, h4, h5⟩ := ih
    simp only [decayState]
    refine ⟨h1, h2, le_max_right _ _, max_le (by linarith) (by norm_num), h5⟩
  | @decayRead s t _ ih =>
    obtain ⟨h1, h2, h3, h4, h5⟩ := ih
    rcases hla : s.lastAnswerAt with _ | last
    · simpa only [applyDecayPure, hla] using ⟨h1, h2, h3, h4, h5⟩
    · by_cases hcond : STREAK_DECAY_MS < t - last ∧ 0 < s.streak
      · simp only [applyDecayPure, hla, if_pos hcond]
        refine ⟨h1, h2, le_max_right _ _, max_le (by linarith) (by norm_num), h5⟩
      · simp only [applyDecayPure, hla, if_neg hcond]
        exact ⟨h1, h2, h3, h4, h5⟩

/-- Witness for C8 at a concrete reachable state: onboarding defaults
followed by one correct answer at difficulty 3. -/
theorem reachable_invariants_witness :
    1 ≤ (applySubmissionState (initialUserState "u") 3 true "q1" 1000).1.currentDifficulty ∧
    (applySubmissionState (initialUserState "u") 3 true "q1" 1000).1.currentDifficulty ≤ 10 ∧
    -2 ≤ (applySubmissionState (initialUserState "u") 3 true "q1" 1000).1.confidence ∧
    (applySubmissionState (initialUserState "u") 3 true "q1" 1000).1.confidence ≤ 2 ∧
    0 ≤ (applySubmissionState (initialUserState "u") 3 true "q1" 1000).1.totalScore :=
  reachable_invariants _ (Reachable.submit 3 true "q1" 1000 (Reachable.init "u"))

/-! ## C2: version conflict has no side effects -/

/-- C2: a submission whose `expectedStateVersion` differs from the
current (possibly decay-bumped) state version of the user's durable row
fails with the version-conflict error, and the user-state, answer-log
and leaderboard tables are exactly as they were before the attempt. -/
theorem submitAnswer_versionConflict_leaves_state (hash : String → String)
    (now : ℚ) (db : Db) (redis : RedisState) (body : SubmitAnswerBody)
    (row : UserState)
    (hmf : ¬ missingFields body)
    (hden : body.stateVersion.den = 1)
    (hrate : ¬ RATE_LIMIT_PER_MINUTE < (bumpRateCounter redis body.userId).1)
    (hreplay : replayLookup (bumpRateCounter redis body.userId).2 body = none)
    (hfind : db.userStates.find? (fun r => r.userId == body.userId) = some row)
    (hver : body.stateVersion ≠
      (if quizDecayCondition now row then decayState row else row).stateVersion) :
    (submitAnswer hash now db redis body).result = .error .versionConflict ∧
    (submitAnswer hash now db redis body).db.userStates = db.userStates ∧
    (submitAnswer hash now db redis body).db.answerLog = db.answerLog ∧
    (submitAnswer hash now db redis body).db.leaderboardScore = db.leaderboardScore ∧
    (submitAnswer hash now db redis body).db.leaderboardStreak = db.leaderboardStreak := by
  obtain ⟨h1, h2⟩ := versionConflict_outcome hash now db redis body row hmf hden hrate
    hreplay hfind hver
  exact ⟨h1, by rw [h2], by rw [h2], by rw [h2], by rw [h2]⟩

/-- Witness for C2: `conflictBody` echoes version 4 against `freshRow`
(version 5, no decay): the call fails with the version conflict and every
durable table is unchanged. -/
theorem submitAnswer_versionConflict_leaves_state_witness :
    (submitAnswer hashIdentity 1000 freshDb {} conflictBody).result = .error .versionConflict ∧
    (submitAnswer hashIdentity 1000 freshDb {} conflictBody).db.userStates = freshDb.userStates ∧
    (submitAnswer hashIdentity 1000 freshDb {} conflictBody).db.answerLog = freshDb.answerLog ∧
    (submitAnswer hashIdentity 1000 freshDb {} conflictBody).db.leaderboardScore =
      freshDb.leaderboardScore ∧
    (submitAnswer hashIdentity 1000 freshDb {} conflictBody).db.leaderboardStreak =
      freshDb.leaderboardStreak :=
  submitAnswer_versionConflict_leaves_state hashIdentity 1000 freshDb {} conflictBody freshRow
    (by decide) (by decide) (by decide) rfl rfl
    (by simp [conflictBody, quizDecayCondition, freshRow])

/-! ## C1: decay is NOT persisted when version validation fails -/

/-- C1 counterexample: at `staleRow` the inline decay triggers (the
decay-bumped version would be 6), the submission echoing the pre-decay
version 5 is rejected, and the durable database afterwards is exactly
`staleDb` — still at version 5.  The decayed values were not persisted,
contradicting the claim. -/
theorem decay_not_persisted_on_conflict_cex :
    quizDecayCondition 400000 staleRow ∧
    (decayState staleRow).stateVersion = 6 ∧
    staleRow.stateVersion = 5 ∧
    (submitAnswer hashIdentity 400000 staleDb {} staleBody).result = .error .versionConflict ∧
    (submitAnswer hashIdentity 400000 staleDb {} staleBody).db = staleDb := by
  have hdecay : quizDecayCondition 400000 staleRow := by
    norm_num [quizDecayCondition, staleRow, INACTIVITY_DECAY_MS]
  have hver : staleBody.stateVersion ≠
      (if quizDecayCondition 400000 staleRow then decayState staleRow else staleRow).stateVersion := by
    rw [if_pos hdecay]
    norm_num [staleBody, decayState, staleRow]
  obtain ⟨h1, h2⟩ := versionConflict_outcome hashIdentity 400000 staleDb {} staleBody staleRow
    (by decide) (by decide) (by decide) rfl rfl hver
  refine ⟨hdecay, by norm_num [decayState, staleRow], rfl, h1, h2⟩

/-- C1 as amended: when inactivity decay triggers during a submission,
the version check compares against the decay-bumped version
(`stateVersion + 1`), but if that check fails the transaction rolls back
and nothing — including the decayed streak, confidence and version — is
persisted to the durable record. -/
theorem submitAnswer_decay_conflict_rolls_back (hash : String → String)
    (now : ℚ) (db : Db) (redis : RedisState) (body : SubmitAnswerBody)
    (row : UserState)
    (hmf : ¬ missingFields body)
    (hden : body.stateVersion.den = 1)
    (hrate : ¬ RATE_LIMIT_PER_MINUTE < (bumpRateCounter redis body.userId).1)
    (hreplay : replayLookup (bumpRateCounter redis body.userId).2 body = none)
    (hfind : db.userStates.find? (fun r => r.userId == body.userId) = some row)
    (hdecay : quizDecayCondition now row)
    (hver : body.stateVersion ≠ row.stateVersion + 1) :
    (submitAnswer hash now db redis body).result = .error .versionConflict ∧
    (submitAnswer hash now db redis body).db = db :=
  versionConflict_outcome hash now db redis body row hmf hden hrate hreplay hfind
    (by rw [if_pos hdecay]; exact hver)

/-- Witness for the amended C1 at the `staleRow` scenario. -/
theorem submitAnswer_decay_conflict_rolls_back_witness :
    (submitAnswer hashIdentity 400000 staleDb {} staleBody).result = .error .versionConflict ∧
    (submitAnswer hashIdentity 400000 staleDb {} staleBody).db = staleDb :=
  submitAnswer_decay_conflict_rolls_back hashIdentity 400000 staleDb {} staleBody staleRow
    (by decide) (by decide) (by decide) rfl rfl
    (by norm_num [quizDecayCondition, staleRow, INACTIVITY_DECAY_MS])
    (by norm_num [staleBody, staleRow])

/-! ## C5: the inline decay of `submitAnswer` ignores `streak > 0` -/

/-- C5: at a zero-streak row inactive for more than 5 minutes, the inline
decay of `submitAnswer` still fires — decrementing confidence and bumping
`stateVersion`, so a submission echoing the stored version 1 is rejected
with a version conflict — while `applyDecay` of `src/userState.ts` (the
decay policy the claim and spec describe) leaves the same row entirely
unchanged. -/
theorem zeroStreak_decay_divergence :
    quizDecayCondition 400000 zeroStreakStaleRow ∧
    (decayState zeroStreakStaleRow).confidence = -1 ∧
    (decayState zeroStreakStaleRow).stateVersion = 2 ∧
    applyDecayPure 400000 zeroStreakStaleRow = zeroStreakStaleRow ∧
    (submitAnswer hashIdentity 400000 zeroStreakDb {} zeroStreakBody).result =
      .error .versionConflict := by
  have hdecay : quizDecayCondition 400000 zeroStreakStaleRow := by
    norm_num [quizDecayCondition, zeroStreakStaleRow, INACTIVITY_DECAY_MS]
  refine ⟨hdecay, by norm_num [decayState, zeroStreakStaleRow],
    by norm_num [decayState, zeroStreakStaleRow], ?_, ?_⟩
  · norm_num [applyDecayPure, zeroStreakStaleRow, STREAK_DECAY_MS]
  · exact (versionConflict_outcome hashIdentity 400000 zeroStreakDb {} zeroStreakBody
      zeroStreakStaleRow (by decide) (by decide) (by decide) rfl rfl
      (by rw [if_pos hdecay]; norm_num [zeroStreakBody, decayState, zeroStreakStaleRow])).1

/-! ## C6: idempotent replay -/

/-- C6 counterexample: a second submission carrying the stored token
`tok` but with an empty (hence different) `answerText` is rejected by
input validation before the idempotency lookup — it does not return the
stored response. -/
theorem replay_empty_answer_rejected_cex :
    lookupAssoc redisWithToken.idempotency ("idemp:" ++ "tok") = some storedResponse ∧
    emptyAnswerReplayBody.answerIdempotencyKey = some "tok" ∧
    emptyAnswerReplayBody.answer = "" ∧
    (submitAnswer hashIdentity 0 freshDb redisWithToken emptyAnswerReplayBody).result =
      .error .validationError := by
  refine ⟨by simp [redisWithToken, lookupAssoc], rfl, rfl, ?_⟩
  simp [submitAnswer, missingFields, emptyAnswerReplayBody]

/-- C6 as amended: provided a submission passes the pre-checks that run
before the idempotency lookup (field validation and the rate limit), a
token with a stored response short-circuits the pipeline: the stored
response is returned verbatim — whatever the `answerText` — the durable
database is untouched, and Redis changes only by the rate-counter
increment. -/
theorem submitAnswer_idempotent_replay (hash : String → String) (now : ℚ)
    (db : Db) (redis : RedisState) (body : SubmitAnswerBody)
    (resp : SubmitAnswerResponse) (k : String)
    (hmf : ¬ missingFields body)
    (hden : body.stateVersion.den = 1)
    (hrate : ¬ RATE_LIMIT_PER_MINUTE < (bumpRateCounter redis body.userId).1)
    (hkey : body.answerIdempotencyKey = some k)
    (hk : k ≠ "")
    (hstored : lookupAssoc redis.idempotency ("idemp:" ++ k) = some resp) :
    (submitAnswer hash now db redis body).result = .ok resp ∧
    (submitAnswer hash now db redis body).db = db ∧
    (submitAnswer hash now db redis body).redis = (bumpRateCounter redis body.userId).2 := by
  have hreplay : replayLookup (bumpRateCounter redis body.userId).2 body = some resp := by
    simp [replayLookup, hkey, hk, bumpRateCounter, hstored]
  rw [submitAnswer_replayHit hash now db redis body resp hmf hden hrate hreplay]
  exact ⟨rfl, rfl, rfl⟩

/-- Witness for the amended C6: replaying token `tok` with a different
`answerText` (43 instead of the original) returns the stored response
and leaves the database untouched. -/
theorem submitAnswer_idempotent_replay_witness :
    (submitAnswer hashIdentity 0 freshDb redisWithToken replayBody).result = .ok storedResponse ∧
    (submitAnswer hashIdentity 0 freshDb redisWithToken replayBody).db = freshDb ∧
    (submitAnswer hashIdentity 0 freshDb redisWithToken replayBody).redis =
      (bumpRateCounter redisWithToken "u").2 :=
  submitAnswer_idempotent_replay hashIdentity 0 freshDb redisWithToken replayBody
    storedResponse "tok" (by decide) (by decide) (by decide) rfl (by decide)
    (by simp [redisWithToken, lookupAssoc])

/-! ## C7: which errors does replay short-circuit? -/

/-- C7 counterexample: with the user's rate counter already at the
20/minute ceiling, a submission carrying the stored token `tok` fails
with the rate-limit error instead of returning the stored response —
replay does not short-circuit `RateLimited`. -/
theorem replay_rate_limited_cex :
    lookupAssoc redisAtRateCeiling.idempotency ("idemp:" ++ "tok") = some storedResponse ∧
    (submitAnswer hashIdentity 0 freshDb redisAtRateCeiling replayBody).result =
      .error .rateLimited := by
  refine ⟨by simp [redisAtRateCeiling, lookupAssoc], ?_⟩
  simp [submitAnswer, missingFields, replayBody, bumpRateCounter, lookupAssoc,
    redisAtRateCeiling, RATE_LIMIT_PER_MINUTE, setAssoc]

/-- C7 as amended: a stored-token replay short-circuits the errors that
arise inside the transaction — here the user has no durable state row, so
without the token the call would fail with the state-not-found error —
but not the checks that run before the idempotency lookup (input
validation and the rate limit). -/
theorem submitAnswer_replay_shortcircuits_txErrors (hash : String → String)
    (now : ℚ) (db : Db) (redis : RedisState) (body : SubmitAnswerBody)
    (resp : SubmitAnswerResponse) (k : String)
    (hmf : ¬ missingFields body)
    (hden : body.stateVersion.den = 1)
    (hrate : ¬ RATE_LIMIT_PER_MINUTE < (bumpRateCounter redis body.userId).1)
    (hkey : body.answerIdempotencyKey = some k)
    (hk : k ≠ "")
    (hstored : lookupAssoc redis.idempotency ("idemp:" ++ k) = some resp)
    (huser : db.userStates.find? (fun r => r.userId == body.userId) = none) :
    (submitAnswer hash now db redis body).result = .ok resp ∧
    submitTransaction hash now db body = .error .stateNotFound := by
  have hreplay : replayLookup (bumpRateCounter redis body.userId).2 body = some resp := by
    simp [replayLookup, hkey, hk, bumpRateCounter, hstored]
  constructor
  · rw [submitAnswer_replayHit hash now db redis body resp hmf hden hrate hreplay]
  · unfold submitTransaction
    rw [huser]

/-- Witness for the amended C7: against a database with no user rows at
all, the stored-token replay still returns the stored response while the
bypassed transaction would have failed with state-not-found. -/
theorem submitAnswer_replay_shortcircuits_txErrors_witness :
    (submitAnswer hashIdentity 0 emptyLeaderboardDb redisWithToken replayBody).result =
      .ok storedResponse ∧
    submitTransaction hashIdentity 0 emptyLeaderboardDb replayBody =
      .error .stateNotFound :=
  submitAnswer_replay_shortcircuits_txErrors hashIdentity 0 emptyLeaderboardDb redisWithToken
    replayBody storedResponse "tok" (by decide) (by decide) (by decide) rfl (by decide)
    (by simp [redisWithToken, lookupAssoc]) rfl

/-! ## C10: the answer log stores the plaintext answer -/

/-- C10: every committed submission appends exactly one answer-log row,
and that row's `answer` column holds the submitted `answerText`
verbatim. -/
theorem submitAnswer_appends_answer_plaintext (hash : String → String)
    (now : ℚ) (db : Db) (redis : RedisState) (body : SubmitAnswerBody)
    (row : UserState) (question : Question)
    (hmf : ¬ missingFields body)
    (hden : body.stateVersion.den = 1)
    (hrate : ¬ RATE_LIMIT_PER_MINUTE < (bumpRateCounter redis body.userId).1)
    (hreplay : replayLookup (bumpRateCounter redis body.userId).2 body = none)
    (hfind : db.userStates.find? (fun r => r.userId == body.userId) = some row)
    (hver : body.stateVersion =
      (if quizDecayCondition now row then decayState row else row).stateVersion)
    (hq : db.questions.find? (fun q => q.id == body.questionId) = some question) :
    ∃ (entry : AnswerLogEntry) (resp : SubmitAnswerResponse),
      (submitAnswer hash now db redis body).result = .ok resp ∧
      (submitAnswer hash now db redis body).db.answerLog = db.answerLog ++ [entry] ∧
      entry.answer = body.answer ∧
      entry.userId = body.userId ∧
      entry.questionId = body.questionId ∧
      entry.answeredAt = now := by
  rw [submitAnswer_txOk hash now db redis body _ hmf hden hrate hreplay
    (submitTransaction_ok hash now db body row question hfind hver hq)]
  exact ⟨_, _, rfl, rfl, rfl, rfl, rfl, rfl⟩

/-- Witness for C10: a committed submission (`freshRow`, matching version
5) appends a log row whose `answer` field is the submitted text. -/
theorem submitAnswer_appends_answer_plaintext_witness :
    ∃ (entry : AnswerLogEntry) (resp : SubmitAnswerResponse),
      (submitAnswer hashIdentity 1000 freshDb {} staleBody).result = .ok resp ∧
      (submitAnswer hashIdentity 1000 freshDb {} staleBody).db.answerLog =
        freshDb.answerLog ++ [entry] ∧
      entry.answer = staleBody.answer ∧
      entry.userId = staleBody.userId ∧
      entry.questionId = staleBody.questionId ∧
      entry.answeredAt = 1000 :=
  submitAnswer_appends_answer_plaintext hashIdentity 1000 freshDb {} staleBody
    freshRow fixtureQuestion (by decide) (by decide) (by decide) rfl rfl
    (by simp [staleBody, quizDecayCondition, freshRow]) rfl

/-! ## C9: what `getTop` actually recomputes from -/

/-- C9 as amended: `getTop` serves the cached projection when one is
present; otherwise it recomputes the top list from the Redis sorted-set
tier (not from the durable leaderboard rows) and repopulates the cache
with a 30-second lifetime. -/
theorem getTop_cache_and_zset_behavior (redis : RedisState) (kind : Dimension)
    (limit : ℚ) :
    getTop redis kind limit =
      match lookupAssoc redis.topCache (cacheKeyForTop kind (max 1 ⌊limit⌋)) with
      | some cached => (redis, cached.1)
      | none =>
        ({ redis with
            topCache := setAssoc redis.topCache (cacheKeyForTop kind (max 1 ⌊limit⌋)) (topProjectionFromZsets redis kind (max 1 ⌊limit⌋).toNat, TOP_CACHE_TTL_SECONDS) },
         topProjectionFromZsets redis kind (max 1 ⌊limit⌋).toNat) := by
  unfold getTop
  cases hlk : lookupAssoc redis.topCache (cacheKeyForTop kind (max 1 ⌊limit⌋)) with
  | some cached => simp [hlk]
  | none =>
    cases kind with
    | score => simp [hlk, topProjectionFromZsets]
    | streak => simp [hlk, topProjectionFromZsets]

/-- C9 counterexample: with empty durable leaderboard tables but `alice`
present in the Redis sorted set, a cache-miss `getTop` returns `alice` —
the recomputation the claim attributes to the durable rows (which would
yield the empty list) actually reads the cache-tier sorted sets. -/
theorem getTop_reads_zset_not_durable_cex :
    emptyLeaderboardDb.leaderboardScore = [] ∧
    emptyLeaderboardDb.leaderboardStreak = [] ∧
    (getTop redisZsetOnly .score 10).2 =
      [{ userId := "alice", totalScore := 100, maxStreak := 0, rank := 1 }] ∧
    specTopFromDurableRows emptyLeaderboardDb .score 10 = [] := by
  refine ⟨rfl, rfl, ?_, ?_⟩
  · simp [getTop, redisZsetOnly, lookupAssoc, cacheKeyForTop, zRevSorted,
      insertByScoreDesc, topProjectionFromZsets]
  · simp [specTopFromDurableRows, emptyLeaderboardDb, zRevSorted]

end BrainBolt
